import Mathlib

/-!
Verification development for the agentic RAG control loop of
`react-rag-multiagent-ucla` (backend/app/agents plus the retrieval service and
the chat router).

The Python sources are shallowly embedded below:

* pure string manipulation (`str.strip`, `str.lower`, `in`, `str.replace`,
  `str.split`) is re-implemented character by character over `List Char`;
* similarity scores (Python floats compared against literal thresholds such as
  `0.25`) are modelled as rationals, which preserves every comparison the code
  performs;
* each LangGraph node is a function from the graph state to a partial-update
  record; the orchestrator merge follows the channel annotations of
  `app/agents/state.py` (`operator.add` on `conversation_history`,
  `retrieved_documents` and `trace`, plain replacement elsewhere);
* LLM completions and vector-store searches are blocking external calls; they
  enter the model as explicit `Except`-valued inputs (`.error` = the Python
  call raised, `.ok` = the returned payload), bundled in an `Oracle` record.
  Prompt strings only flow into those external calls, so prompt construction
  is not modelled.

`increment_retry`, `get_conversation_context`, the `retry_count` and
`current_query` state fields and the `messages` list are imported or read by
the agent modules but are not defined in the state schema shipped under
`src/backend/app/agents/state.py`; those pieces are modelled from the spec and
are marked `Modelled from the spec:` at their definition sites.
-/

namespace RagSpec

/-! ## Python string primitives -/

/-- Characters treated as whitespace by Python `str.strip()`. -/
def isPySpace (c : Char) : Bool :=
  c == ' ' || c == '\t' || c == '\n' || c == '\r' ||
  c == Char.ofNat 11 || c == Char.ofNat 12

/-- Python `str.strip()` on a character list. -/
def stripList (l : List Char) : List Char :=
  ((l.dropWhile isPySpace).reverse.dropWhile isPySpace).reverse

/-- Python `str.strip()`. -/
def pyStrip (s : String) : String :=
  ⟨stripList s.data⟩

/-- Python `str.strip(chars)`: drop the given characters from both ends. -/
def pyStripChars (cs : List Char) (s : String) : String :=
  ⟨((s.data.dropWhile (cs.contains ·)).reverse.dropWhile (cs.contains ·)).reverse⟩

/-- Does `hay` start with `needle`? (Python `str.startswith`.) -/
def leadEq : List Char → List Char → Bool
  | [], _ => true
  | _ :: _, [] => false
  | a :: as, b :: bs => a == b && leadEq as bs

/-- Python substring containment `needle in hay`. -/
def occursIn : List Char → List Char → Bool
  | n, [] => leadEq n []
  | n, c :: t => leadEq n (c :: t) || occursIn n t

/-- String wrapper for `occursIn`: Python `needle in hay`. -/
def strHas (hay needle : String) : Bool :=
  occursIn needle.data hay.data

/-- String wrapper for `leadEq`: Python `s.startswith(pre)`. -/
def pyStartsWith (s pre : String) : Bool :=
  leadEq pre.data s.data

/-- Python `s.replace(pat, "")`: delete every (left-to-right,
non-overlapping) occurrence of `pat`. The `fuel` argument — instantiated to
the text's length, an upper bound on the number of scan steps — only makes
the recursion structural. -/
def removeAllAux (pat : List Char) : Nat → List Char → List Char
  | _, [] => []
  | 0, l => l
  | fuel + 1, c :: t =>
    if 0 < pat.length && leadEq pat (c :: t) then
      removeAllAux pat fuel (t.drop (pat.length - 1))
    else
      c :: removeAllAux pat fuel t

/-- Python `s.replace(pat, "")` on strings. -/
def pyRemoveAll (s pat : String) : String :=
  ⟨removeAllAux pat.data s.data.length s.data⟩

/-- Python `str.lower()`, restricted to ASCII letters plus the uppercase
accented characters of the Spanish keyword lists; all other characters are
unchanged (matching Python on every string the claims touch). -/
def pyLowerChar (c : Char) : Char :=
  if 'A' ≤ c && c ≤ 'Z' then Char.ofNat (c.toNat + 32)
  else if c = 'Á' then 'á'
  else if c = 'É' then 'é'
  else if c = 'Í' then 'í'
  else if c = 'Ó' then 'ó'
  else if c = 'Ú' then 'ú'
  else if c = 'Ñ' then 'ñ'
  else if c = 'Ü' then 'ü'
  else c

/-- Python `str.lower()`. -/
def pyLower (s : String) : String :=
  ⟨s.data.map pyLowerChar⟩

/-- Split a character list at every occurrence of `sep` (Python
`str.split(sep)` for a one-character separator: empty pieces are kept). -/
def splitOnChar (sep : Char) : List Char → List (List Char)
  | [] => [[]]
  | c :: t =>
    match splitOnChar sep t with
    | [] => [[]]
    | h :: r => if c = sep then [] :: h :: r else (c :: h) :: r

/-- Python `s.split('\n')`. -/
def pySplitLines (s : String) : List String :=
  (splitOnChar '\n' s.data).map (fun l => ⟨l⟩)

/-- Python `len(s)`. -/
def pyLen (s : String) : Nat :=
  s.data.length

/-- Python slicing `s[:n]`. -/
def pySliceTo (s : String) (n : Nat) : String :=
  ⟨s.data.take n⟩

/-- Python `s.split(sep)[-1]` for a one-character separator: the text after
the last occurrence of the separator. -/
def lastSplitPiece (sep : Char) (s : String) : String :=
  ⟨((s.data.reverse.takeWhile (· != sep))).reverse⟩

/-! ## `parse_react_response` (app/agents/prompts.py) -/

/-- The three fields of a parsed ReAct response. -/
structure ReactFields where
  thought : String
  action : String
  action_input : String
deriving Repr, DecidableEq

/-- Which field continuation lines are currently appended to
(Python's `current_field`, `none` = Python `None`). -/
inductive CurField
  | thought
  | action
  | actionInput
deriving Repr, DecidableEq

/-- Read the named field of the accumulator. -/
def getField (r : ReactFields) : CurField → String
  | .thought => r.thought
  | .action => r.action
  | .actionInput => r.action_input

/-- Write the named field of the accumulator. -/
def setField (r : ReactFields) : CurField → String → ReactFields
  | .thought, v => { r with thought := v }
  | .action, v => { r with action := v }
  | .actionInput, v => { r with action_input := v }

/-- One iteration of the `for line in lines` loop of `parse_react_response`. -/
def parseStep (acc : ReactFields × Option CurField) (line : String) :
    ReactFields × Option CurField :=
  let l := pyStrip line
  if pyStartsWith l "Thought:" then
    ({ acc.1 with thought := pyStrip (pyRemoveAll l "Thought:") }, some .thought)
  else if pyStartsWith l "Action:" then
    ({ acc.1 with action := pyLower (pyStrip (pyRemoveAll l "Action:")) }, some .action)
  else if pyStartsWith l "Action Input:" then
    ({ acc.1 with action_input := pyStrip (pyRemoveAll l "Action Input:") }, some .actionInput)
  else
    match acc.2 with
    | some f => if l ≠ "" then (setField acc.1 f (getField acc.1 f ++ " " ++ l), acc.2) else acc
    | none => acc

/-- The line-scanning phase of `parse_react_response`, before action
validation. -/
def parseFields (response : String) : ReactFields × Option CurField :=
  (pySplitLines (pyStrip response)).foldl parseStep (⟨"", "", ""⟩, none)

/-- `parse_react_response` (prompts.py:315-363): scan the lines, then coerce
an action outside `{"search", "answer"}` to `"search"`. -/
def parse_react_response (response : String) : ReactFields :=
  let result := (parseFields response).1
  if result.action = "search" ∨ result.action = "answer" then result
  else { result with action := "search" }

/-! ## Domain gate (app/agents/coordinator.py) -/

/-- `DOMAIN_KEYWORDS` (coordinator.py:23-34). -/
def DOMAIN_KEYWORDS : List String :=
  ["inteligencia artificial", "machine learning", "aprendizaje automático",
   "red neuronal", "redes neuronales", "deep learning", "aprendizaje profundo",
   "algoritmo", "modelo", "clasificación", "regresión", "clustering",
   "agente", "grafo", "búsqueda", "heurística", "rag", "llm",
   "transformer", "backpropagation", "gradient", "overfitting",
   "ia", "ml", "nlp", "cnn", "rnn", "lstm", "gpt", "bert",
   "vector", "embedding", "similitud", "retrieval", "generación",
   "supervisado", "no supervisado", "refuerzo", "reinforcement",
   "perceptrón", "neurona", "capa", "función de activación",
   "datos", "dataset", "entrenamiento", "inferencia", "predicción"]

/-- `OUT_OF_DOMAIN_KEYWORDS` (coordinator.py:37-45). -/
def OUT_OF_DOMAIN_KEYWORDS : List String :=
  ["bitcoin", "ethereum", "usdt", "crypto", "criptomoneda", "dólar", "euro",
   "precio", "valor", "cotización", "bolsa", "acción", "inversión",
   "fútbol", "béisbol", "mundial", "copa", "gol", "equipo", "partido",
   "clima", "temperatura", "lluvia", "tiempo meteorológico",
   "receta", "cocina", "comida", "ingrediente",
   "política", "presidente", "elección", "gobierno",
   "película", "canción", "artista", "actor"]

/-- `is_out_of_domain` (coordinator.py:48-71): lowercase the query; an
in-domain keyword match returns `False` before out-of-domain keywords are
consulted; unmatched queries fall through to `False`. -/
def is_out_of_domain (query : String) : Bool :=
  let query_lower := pyLower query
  if DOMAIN_KEYWORDS.any (fun kw => strHas query_lower kw) then false
  else if OUT_OF_DOMAIN_KEYWORDS.any (fun kw => strHas query_lower kw) then true
  else if pyLen (pyStrip query) ≤ 5 then false
  else false

/-! ## Documents and the retrieval gateway (app/services/retriever.py) -/

/-- One scored document as produced by the vector store and threaded through
the graph: `{"document": ..., "metadata": {"source": ..., "chunk_id": ...},
"similarity": ...}`. Similarity scores are modelled as rationals. -/
structure Doc where
  document : String
  source : String
  chunk_id : String
  similarity : ℚ
deriving Repr, DecidableEq

/-- Python truthiness-based defaulting `x or d` for an optional integer
argument (`None` and `0` both fall back to the default). -/
def pyOrNat (x : Option Nat) (d : Nat) : Nat :=
  match x with
  | some v => if v = 0 then d else v
  | none => d

/-- Python truthiness-based defaulting `x or d` for an optional float
argument (`None` and `0.0` both fall back to the default). -/
def pyOrRat (x : Option ℚ) (d : ℚ) : ℚ :=
  match x with
  | some v => if v = 0 then d else v
  | none => d

/-- `RetrieverService.retrieve` (retriever.py:35-99). `vsearch query n` is
the vector store's `search(query, n_results=n, ...)` contract; the service
over-fetches `k * 2` candidates, keeps those with `similarity >= threshold`,
and truncates to the first `k`. -/
def retrieve (vsearch : String → Nat → List Doc) (self_top_k : Nat)
    (self_threshold : ℚ) (query : String) (top_k : Option Nat)
    (min_similarity : Option ℚ) : List Doc :=
  let k := pyOrNat top_k self_top_k
  let threshold := pyOrRat min_similarity self_threshold
  let results := vsearch query (k * 2)
  let filtered_results := results.filter (fun r => threshold ≤ r.similarity)
  filtered_results.take k

/-! ## Graph state (app/agents/state.py) -/

/-- One message of `conversation_history` (timestamps, being wall-clock
data, are not modelled). -/
structure Msg where
  role : String
  content : String
deriving Repr, DecidableEq

/-- One entry of the ReAct `trace` (`add_trace_step`, state.py:118-147;
the wall-clock `timestamp` field is not modelled). -/
structure TraceStep where
  step : Nat
  agent : String
  thought : String
  action : String
  observation : String
deriving Repr, DecidableEq

/-- `GraphState` (state.py:5-71). `Option` fields are the `Optional` fields
of the TypedDict (`none` = Python `None`).

`retry_count` and `current_query` — Modelled from the spec: they are read by
coordinator.py, grader.py and rewriter.py, and `retry_count` is written by the
`increment_retry` helper that rewriter.py imports from `app.agents.state`, but
neither is declared in the state schema shipped under src/; the spec
describes `retry_count` as a monotonically increasing plain counter and
`current_query` as the active query text. `current_query` is never written by
any node, so it is `none` throughout a turn and every read falls back to
`user_query`. -/
structure GraphState where
  user_query : String
  current_query : Option String
  conversation_history : List Msg
  iteration : Nat
  thought : Option String
  action : Option String
  action_input : Option String
  observation : Option String
  retrieved_documents : List Doc
  relevant_context : Option String
  final_answer : Option String
  next_step : String
  should_continue : Bool
  trace : List TraceStep
  error : Option String
  retry_count : Nat
deriving Repr, DecidableEq

/-- `create_initial_state` (state.py:74-115), with `retry_count = 0` per the
spec's lifecycle rule ("`iteration`/`retry_count`/`trace` always reset to
zero/empty for a new turn"). -/
def create_initial_state (user_query : String) : GraphState where
  user_query := user_query
  current_query := none
  conversation_history := [⟨"user", user_query⟩]
  iteration := 0
  thought := none
  action := none
  action_input := none
  observation := none
  retrieved_documents := []
  relevant_context := none
  final_answer := none
  next_step := "coordinator"
  should_continue := true
  trace := []
  error := none
  retry_count := 0

/-- A node's partial-update map: `some v` means the key is present in the
returned dict with value `v`; `trace` entries are always returned as a list
to concatenate (the `operator.add` channel). -/
structure StateUpdate where
  thought : Option String := none
  action : Option String := none
  action_input : Option String := none
  observation : Option String := none
  relevant_context : Option String := none
  final_answer : Option String := none
  next_step : Option String := none
  should_continue : Option Bool := none
  iteration : Option Nat := none
  retry_count : Option Nat := none
  error : Option String := none
  retrieved_documents : Option (List Doc) := none
  trace : List TraceStep := []
deriving Repr, DecidableEq

/-- The orchestrator merge of a node's partial update into the state,
following the channel annotations of state.py: `conversation_history`,
`retrieved_documents` and `trace` are `Annotated[..., operator.add]`
channels, so a returned value is *appended*; every other key replaces the
previous value. (No node ever returns `conversation_history`, so that
channel needs no update slot.) `retry_count` merges by replacement —
Modelled from the spec: the spec's explicit-merge model treats the counter
as a plain field. -/
def applyUpdate (s : GraphState) (u : StateUpdate) : GraphState where
  user_query := s.user_query
  current_query := s.current_query
  conversation_history := s.conversation_history
  iteration := u.iteration.getD s.iteration
  thought := match u.thought with | some v => some v | none => s.thought
  action := match u.action with | some v => some v | none => s.action
  action_input := match u.action_input with | some v => some v | none => s.action_input
  observation := match u.observation with | some v => some v | none => s.observation
  retrieved_documents := s.retrieved_documents ++ u.retrieved_documents.getD []
  relevant_context := match u.relevant_context with | some v => some v | none => s.relevant_context
  final_answer := match u.final_answer with | some v => some v | none => s.final_answer
  next_step := u.next_step.getD s.next_step
  should_continue := u.should_continue.getD s.should_continue
  trace := s.trace ++ u.trace
  error := match u.error with | some v => some v | none => s.error
  retry_count := u.retry_count.getD s.retry_count

/-- `add_trace_step` (state.py:118-147): one trace entry stamped with the
state's current iteration. -/
def add_trace_step (s : GraphState) (agent thought action observation : String) :
    List TraceStep :=
  [⟨s.iteration, agent, thought, action, observation⟩]

/-- `increment_iteration` (state.py:150-160) as the value of the returned
`iteration` key. -/
def increment_iteration (s : GraphState) : Nat :=
  s.iteration + 1

/-- Modelled from the spec: `increment_retry`, imported by rewriter.py from
`app.agents.state` but absent from the state module under src/; per the spec
the Rewriter "increments `retry_count`" by one, mirroring
`increment_iteration`. -/
def increment_retry (s : GraphState) : Nat :=
  s.retry_count + 1

/-! ## Grader (app/agents/grader.py) -/

/-- `GraderAgent.grade_document` (grader.py:61-83): the optimised LLM-free
relevance rule, `similarity >= 0.25` with the threshold boundary included.
The `question` and `document` arguments are accepted but unused, as in the
source. -/
def grade_document (question document : String) (similarity : ℚ) : Bool :=
  let threshold : ℚ := 25 / 100
  threshold ≤ similarity

/-- The document loop of `GraderAgent.__call__` (grader.py:127-148): each
document goes to `relevant_docs` or `irrelevant_docs` by `grade_document`,
in input order. -/
def graderPartition (question : String) (documents : List Doc) :
    List Doc × List Doc :=
  (documents.filter (fun d => grade_document question d.document d.similarity),
   documents.filter (fun d => ! grade_document question d.document d.similarity))

/-- The `question = state.get("current_query", "") / user_query /
action_input` fallback chain shared by grader.py and answer_node.py. -/
def questionOf (s : GraphState) : String :=
  let q1 := s.current_query.getD ""
  if q1 ≠ "" then q1
  else if s.user_query ≠ "" then s.user_query
  else s.action_input.getD ""

/-- `GraderAgent.__call__` (grader.py:85-190). With documents present it
returns the relevant sublist under the `retrieved_documents` key together
with `observation` and `next_step`; with no documents it returns only an
observation and a trace entry. The body raises no exceptions (the grading
rule is pure), so the `except` branch is dead. -/
def graderNodeF (s : GraphState) : StateUpdate :=
  let question := questionOf s
  if s.retrieved_documents = [] then
    { observation := some "No hay documentos para evaluar"
      trace := add_trace_step s "grader" "Sin documentos para evaluar" "skip"
        "No documents to grade" }
  else
    let (relevant_docs, irrelevant_docs) := graderPartition question s.retrieved_documents
    let observation :=
      "Evaluados " ++ toString s.retrieved_documents.length ++ " documentos: " ++
      toString relevant_docs.length ++ " relevantes, " ++
      toString irrelevant_docs.length ++ " irrelevantes"
    let nt : String × String :=
      if relevant_docs.length = 0 then
        ("rewrite", "No hay documentos relevantes, necesito reescribir la consulta")
      else
        ("answer", "Encontrados " ++ toString relevant_docs.length ++
          " documentos relevantes, proceder a responder")
    { retrieved_documents := some relevant_docs
      observation := some observation
      next_step := some nt.1
      trace := add_trace_step s "grader" nt.2 "grade" observation }

/-! ## Coordinator (app/agents/coordinator.py) -/

/-- The coordinator's effective query:
`state.get("current_query", "") or state.get("user_query", "")`
(coordinator.py:102). -/
def coordQuery (s : GraphState) : String :=
  let a := s.current_query.getD ""
  if a = "" then s.user_query else a

/-- `CoordinatorAgent.__call__` (coordinator.py:89-213). `resp` is the LLM
completion (`.error e` = the call raised `e`). Paths, in source order: the
out-of-domain short-circuit (before the `try`, no LLM call), the exception
branch, the retry-override on the parsed action, the iteration ceiling
(checked against the state's pre-increment `iteration`), and the normal
decision. -/
def coordinatorNode (resp : Except String String) (s : GraphState) : StateUpdate :=
  if is_out_of_domain (coordQuery s) then
    { thought := some "La pregunta está fuera del dominio de conocimiento del sistema"
      action := some "answer"
      action_input := some "out_of_domain"
      next_step := some "answer"
      should_continue := some false
      iteration := some (increment_iteration s)
      trace := add_trace_step s "coordinator" "Query fuera de dominio detectada"
        "answer" "Redirigiendo a respuesta de fuera de dominio" }
  else
    match resp with
    | .error e =>
      { error := some ("Error en coordinador: " ++ e)
        next_step := some "end"
        should_continue := some false
        trace := add_trace_step s "coordinator" "Error fatal" "error" e }
    | .ok response =>
      let parsed := parse_react_response response
      let action_input := parsed.action_input
      let iteration := s.iteration
      let has_docs := 0 < s.retrieved_documents.length
      let retry_count := s.retry_count
      let ta : String × String :=
        if 2 ≤ retry_count ∧ ¬ has_docs ∧ parsed.action = "search" then
          ("answer",
           parsed.thought ++ " [Nota: Respondiendo con conocimiento general después de "
             ++ toString retry_count ++ " búsquedas sin resultados]")
        else (parsed.action, parsed.thought)
      if 5 ≤ iteration then
        { thought := some "Máximo de iteraciones alcanzado"
          action := some "answer"
          action_input := some
            ("He alcanzado el límite de iteraciones. Con la información disponible, puedo decir que: "
              ++ action_input)
          next_step := some "answer"
          should_continue := some false
          iteration := some (increment_iteration s)
          trace := add_trace_step s "coordinator" "Límite de iteraciones" "answer"
            "Forzando respuesta final" }
      else
        let next_step := if ta.1 = "search" then "search" else "answer"
        { thought := some ta.2
          action := some ta.1
          action_input := some action_input
          next_step := some next_step
          should_continue := some (ta.1 ≠ "answer")
          iteration := some (increment_iteration s)
          trace := add_trace_step s "coordinator" ta.2 ta.1 ("Decidido: " ++ ta.1) }

/-! ## Search node (app/agents/search_node.py) -/

/-- `SearchNode.__call__` (search_node.py:29-114). The node is built around
`RetrieverService(top_k=5, similarity_threshold=0.2)` and calls
`retrieve(query, top_k=5)`; `resp` carries that call's outcome (`.error` =
the retriever raised). `state.get("action_input", state.get("user_query"))`
returns the stored `action_input` value — possibly `None` — because the key
is always present, and `if not search_query` then skips on `None`/empty. -/
def searchNodeF (resp : Except String (List Doc)) (s : GraphState) : StateUpdate :=
  let search_query := s.action_input
  if search_query = none ∨ search_query = some "" then
    { observation := some "No search query provided"
      next_step := some "answer"
      trace := add_trace_step s "search" "Sin query de búsqueda" "skip"
        "No query to search" }
  else
    match resp with
    | .error e =>
      { error := some ("Error en search: " ++ e)
        next_step := some "answer"
        trace := add_trace_step s "search" "Error al buscar documentos" "error" e }
    | .ok results =>
      let sq := search_query.getD ""
      let documents := results.map (fun r =>
        { document := r.document, source := r.source, chunk_id := r.chunk_id,
          similarity := r.similarity : Doc })
      let context_parts := (documents.enumFrom 1).map (fun p =>
        "[Documento " ++ toString p.1 ++ " - " ++ p.2.source ++ "]\n" ++
          p.2.document ++ "\n")
      let relevant_context := String.intercalate "\n---\n" context_parts
      let observation :=
        "Búsqueda completada: " ++ toString documents.length ++ " documentos encontrados"
      { retrieved_documents := some documents
        relevant_context := some relevant_context
        observation := some observation
        next_step := some "grader"
        trace := add_trace_step s "search" ("Ejecutando búsqueda para: " ++ sq)
          "search" observation }

/-! ## Rewriter (app/agents/rewriter.py) -/

/-- The post-processing of `RewriterAgent.rewrite_query` (rewriter.py:91-94):
`.strip()` then `.strip('"').strip("'").strip('.').strip()`. -/
def cleanRewritten (raw : String) : String :=
  pyStrip (pyStripChars [Char.ofNat 46]
    (pyStripChars [Char.ofNat 39] (pyStripChars [Char.ofNat 34] (pyStrip raw))))

/-- `RewriterAgent.__call__` (rewriter.py:100-173), returning the update and
whether the LLM was invoked. The `current_retry >= 2` pre-check returns a
forced-answer update without touching `retry_count` and without an LLM call;
the success branch rewrites the query and returns `increment_retry`; the
exception branch sets `error` and forces `answer` without touching
`retry_count`. -/
def rewriterNodeF (resp : Except String String) (s : GraphState) :
    StateUpdate × Bool :=
  let current_retry := s.retry_count
  if 2 ≤ current_retry then
    ({ action := some "answer"
       action_input := some
         ("No encontré documentos específicos, pero puedo responder sobre: " ++ s.user_query)
       next_step := some "answer"
       observation := some "Límite de reintentos alcanzado"
       trace := add_trace_step s "rewriter" "Límite de reintentos alcanzado" "answer"
         "Forzando respuesta final" }, false)
  else
    match resp with
    | .error e =>
      ({ error := some ("Error en rewriter: " ++ e)
         action := some "answer"
         next_step := some "answer"
         trace := add_trace_step s "rewriter" "Error al reescribir query" "error" e },
       true)
    | .ok raw =>
      let previous_action_input := s.action_input.getD s.user_query
      let new_query := cleanRewritten raw
      ({ action := some "search"
         action_input := some new_query
         next_step := some "search"
         observation := some ("Query reescrita: " ++ new_query)
         retry_count := some (increment_retry s)
         trace := add_trace_step s "rewriter"
           ("Query anterior no dio resultados relevantes. Reescribiendo: '" ++
             previous_action_input ++ "' → '" ++ new_query ++ "'")
           "rewrite"
           ("Nueva query: " ++ new_query ++ " | Retry: " ++ toString (current_retry + 1)) },
       true)

/-! ## Answer node (app/agents/answer_node.py) -/

/-- The fixed out-of-domain reply of answer_node.py:63-65. -/
def OUT_OF_DOMAIN_ANSWER : String :=
  "Lo siento, no tengo información sobre ese tema en mi base de conocimiento. " ++
  "Mi dominio se limita a temas de Inteligencia Artificial, Machine Learning, " ++
  "Redes Neuronales y Agentes Inteligentes. ¿Puedo ayudarte con alguno de estos temas?"

/-- The generic apology of answer_node.py:106. -/
def GENERIC_APOLOGY : String :=
  "Lo siento, ocurrió un error al generar la respuesta."

/-- `AnswerNode.__call__` (answer_node.py:27-127). `resp` is the synthesis
LLM completion, consulted only on the final branch. On an exception the node
falls back to `action_input` when it is truthy with `len > 10`, else the
generic apology, and still sets `final_answer` and a terminal `next_step`. -/
def answerNodeF (resp : Except String String) (s : GraphState) : StateUpdate :=
  if s.action = some "clarify" then
    let final_answer := s.action_input.getD ""
    { final_answer := some final_answer
      next_step := some "end"
      should_continue := some false
      trace := add_trace_step s "answer" "Solicitando aclaración al usuario" "answer"
        ("Respuesta final generada (" ++ toString (pyLen final_answer) ++ " chars)") }
  else if s.action_input = some "out_of_domain" then
    { final_answer := some OUT_OF_DOMAIN_ANSWER
      next_step := some "end"
      should_continue := some false
      trace := add_trace_step s "answer"
        "Query fuera de dominio - respuesta directa sin documentos" "answer"
        ("Respuesta final generada (" ++ toString (pyLen OUT_OF_DOMAIN_ANSWER) ++ " chars)") }
  else
    match resp with
    | .ok completion =>
      let final_answer := pyStrip completion
      let thought :=
        if 0 < s.retrieved_documents.length then
          "Generando respuesta basada en " ++ toString s.retrieved_documents.length ++
            " documentos recuperados"
        else "Generando respuesta con conocimiento general (sin documentos)"
      { final_answer := some final_answer
        next_step := some "end"
        should_continue := some false
        trace := add_trace_step s "answer" thought "answer"
          ("Respuesta final generada (" ++ toString (pyLen final_answer) ++ " chars)") }
    | .error e =>
      let error_message :=
        match s.action_input with
        | some ai => if ai ≠ "" ∧ 10 < pyLen ai then ai else GENERIC_APOLOGY
        | none => GENERIC_APOLOGY
      { final_answer := some error_message
        error := some ("Error en answer: " ++ e)
        next_step := some "end"
        should_continue := some false
        trace := add_trace_step s "answer" "Error al generar respuesta" "error" e }

/-! ## Graph orchestrator (app/agents/graph.py) -/

/-- The graph's nodes plus the `END` sentinel. -/
inductive GNode
  | coordinator
  | search
  | grader
  | rewriter
  | answer
  | done
deriving Repr, DecidableEq

/-- `route_after_coordinator` (graph.py:21-34): `state.get("action",
"answer")` compared against `"search"`; anything else — including `None` —
routes to `answer`. -/
def route_after_coordinator (s : GraphState) : GNode :=
  if s.action = some "search" then .search else .answer

/-- `route_after_grader` (graph.py:37-61): documents present → `answer`;
`retry_count >= 2` → forced `answer`; else `rewrite`. -/
def route_after_grader (s : GraphState) : GNode :=
  if 0 < s.retrieved_documents.length then .answer
  else if 2 ≤ s.retry_count then .answer
  else .rewriter

/-- The external world of one turn: the coordinator and answer LLM
completions (each node runs at most once per turn), and per-invocation
outcomes for the retriever and the rewriter LLM, indexed by how many times
that call site has run. `.error` means the Python call raised. -/
structure Oracle where
  coordResp : Except String String
  searchResp : Nat → Except String (List Doc)
  rewriteResp : Nat → Except String String
  answerResp : Except String String

/-- A running configuration: the node LangGraph is about to execute, the
merged state, and how many times search and rewriter have run. -/
structure GConfig where
  node : GNode
  state : GraphState
  searchCalls : Nat
  rewriteCalls : Nat
deriving Repr, DecidableEq

/-- One LangGraph superstep of the compiled graph (`build_graph`,
graph.py:77-144): execute the current node, merge its update, then follow
the edge — conditional after `coordinator` and `grader`, unconditional
`search → grader`, `rewriter → search` and `answer → END`. Note that
`rewriter → search` is a static edge: the `next_step` values nodes put in
the state never influence routing. -/
def stepG (o : Oracle) (c : GConfig) : GConfig :=
  match c.node with
  | .coordinator =>
    let s' := applyUpdate c.state (coordinatorNode o.coordResp c.state)
    { c with node := route_after_coordinator s', state := s' }
  | .search =>
    let s' := applyUpdate c.state (searchNodeF (o.searchResp c.searchCalls) c.state)
    { c with node := .grader, state := s', searchCalls := c.searchCalls + 1 }
  | .grader =>
    let s' := applyUpdate c.state (graderNodeF c.state)
    { c with node := route_after_grader s', state := s' }
  | .rewriter =>
    let s' := applyUpdate c.state (rewriterNodeF (o.rewriteResp c.rewriteCalls) c.state).1
    { c with node := .search, state := s', rewriteCalls := c.rewriteCalls + 1 }
  | .answer =>
    let s' := applyUpdate c.state (answerNodeF o.answerResp c.state)
    { c with node := .done, state := s' }
  | .done => c

/-- Iterate `stepG` for `n` supersteps. -/
def runN (o : Oracle) : Nat → GConfig → GConfig
  | 0, c => c
  | n + 1, c => runN o n (stepG o c)

/-- The entry configuration of `run_graph` (graph.py:161-186): initial state
at the `coordinator` entry point. -/
def initConfig (user_query : String) : GConfig where
  node := .coordinator
  state := create_initial_state user_query
  searchCalls := 0
  rewriteCalls := 0

/-- LangGraph's default `recursion_limit`: `graph.invoke` raises after 25
supersteps without reaching `END`. -/
def RECURSION_LIMIT : Nat := 25

/-- `run_graph` (graph.py:161-186): drive the compiled graph to `END`;
`none` models the `GraphRecursionError` escaping `graph.invoke` when the
recursion limit is exhausted first. -/
def run_graph (o : Oracle) (user_query : String) : Option GraphState :=
  let c := runN o RECURSION_LIMIT (initConfig user_query)
  if c.node = .done then some c.state else none

/-! ## Chat endpoint (app/routers/chat.py, app/models/schemas.py) -/

/-- `ChatRequest` (schemas.py:9-28). -/
structure ChatRequest where
  message : String
  conversation_id : Option String
  conversation_history : Option (List Msg)
deriving Repr, DecidableEq

/-- `Source` (schemas.py:31-44). -/
structure Source where
  document : String
  source : String
  similarity : ℚ
deriving Repr, DecidableEq

/-- The fields of `ChatResponse` (schemas.py:57-63) that carry turn content
(the wall-clock `timestamp` is not modelled). -/
structure ChatResponse where
  answer : String
  sources : List Source
  conversation_id : String
deriving Repr, DecidableEq

/-- Round-half-to-even on rationals (the tie-breaking rule of Python's
`round`). -/
def roundHalfEven (x : ℚ) : ℤ :=
  let f := ⌊x⌋
  let r := x - f
  if r < 1 / 2 then f
  else if 1 / 2 < r then f + 1
  else if f % 2 = 0 then f else f + 1

/-- Python `round(x, 4)` on a rational similarity score. -/
def pyRound4 (x : ℚ) : ℚ :=
  (roundHalfEven (x * 10000) : ℚ) / 10000

/-- The per-document `Source` formatting of chat.py:60-65: a 300-character
excerpt with an ellipsis, the filename after the last backslash, and the
similarity rounded to four digits. -/
def formatSource (d : Doc) : Source where
  document := pySliceTo d.document 300 ++ "..."
  source := lastSplitPiece (Char.ofNat 92) d.source
  similarity := pyRound4 d.similarity

/-- The `chat` handler (chat.py:29-105) as a function of the request and the
turn's oracle. `fresh_id` stands for the generated `uuid4` when the request
carries no `conversation_id`. The graph is invoked with `request.message`
only; a `GraphRecursionError` propagates to the `except` and becomes an HTTP
500 (`.error`). The in-memory `conversations` store is server-side only and
does not feed the response. -/
def chatHandler (o : Oracle) (fresh_id : String) (request : ChatRequest) :
    Except String ChatResponse :=
  let conv_id := match request.conversation_id with
    | some cid => if cid = "" then fresh_id else cid
    | none => fresh_id
  match run_graph o request.message with
  | some final_state =>
    .ok { answer := (final_state.final_answer.getD "")
          sources := final_state.retrieved_documents.map formatSource
          conversation_id := conv_id }
  | none => .error "Error procesando mensaje: GraphRecursionError"

/-! ## Concrete fixtures used by witnesses and counterexamples -/

/-- A clearly relevant document (similarity 0.9). -/
def docHigh : Doc := ⟨"contenido sobre machine learning", "ml.pdf", "1", 9 / 10⟩

/-- A clearly irrelevant document (similarity 0.1). -/
def docLow : Doc := ⟨"contenido de otro tema", "otro.pdf", "2", 1 / 10⟩

/-- A boundary document (similarity exactly 0.25). -/
def docBoundary : Doc := ⟨"contenido intermedio", "medio.pdf", "3", 25 / 100⟩

/-- A state in which search has already stored one relevant and one
irrelevant document. -/
def gradeState : GraphState :=
  { create_initial_state "¿Qué es machine learning?" with
    retrieved_documents := [docHigh, docLow] }

/-- An environment whose rewriter LLM raises on every call while every
search succeeds with zero results (vector store finds nothing). -/
def failOracle : Oracle where
  coordResp := Except.ok "Thought: hay que buscar\nAction: search\nAction Input: redes"
  searchResp := fun _ => Except.ok []
  rewriteResp := fun _ => Except.error "Ollama no disponible"
  answerResp := Except.ok "ok"

/-- A benign environment used by witnesses: the coordinator decides to
answer directly and the synthesis LLM returns a fixed reply. -/
def benignOracle : Oracle where
  coordResp := Except.ok "Thought: puedo responder\nAction: answer\nAction Input: hola"
  searchResp := fun _ => Except.ok [docHigh, docLow]
  rewriteResp := fun _ => Except.ok "redes neuronales capas"
  answerResp := Except.ok "Respuesta final."

/-- A state about to enter the answer node on the LLM-synthesis branch. -/
def answerState : GraphState :=
  { create_initial_state "¿Qué es RAG?" with
    action := some "answer", action_input := some "dime más sobre ese tema" }

/-- A canned vector store for the retrieval witness. -/
def witnessSearch : String → Nat → List Doc :=
  fun _ _ => [docHigh, docBoundary, docLow]

/-- A state at the rewriter's retry ceiling. -/
def retryCeilState : GraphState :=
  { create_initial_state "¿Qué es un transformer?" with retry_count := 2 }

/-- A state whose query hits an out-of-domain keyword and no in-domain
keyword. -/
def bitcoinState : GraphState :=
  create_initial_state "¿Cuál es el precio del bitcoin?"

/-- A state at the coordinator's iteration ceiling. -/
def ceilingState : GraphState :=
  { create_initial_state "hola" with iteration := 5 }

/-- A chat request carrying no conversation metadata. -/
def reqPlain : ChatRequest :=
  ⟨"¿Qué es machine learning?", none, none⟩

/-- The same message wrapped in a conversation id and prior history. -/
def reqWithHistory : ChatRequest :=
  ⟨"¿Qué es machine learning?", some "conv-1",
   some [⟨"user", "hola"⟩, ⟨"assistant", "¡Hola! ¿En qué te ayudo?"⟩]⟩

/-- The invariant of the broken rewrite loop under `failOracle`: control sits
inside the `search → grader → rewriter` cycle with no documents, a stuck
`retry_count` of zero and the coordinator's search query unchanged. -/
abbrev loopInv (c : GConfig) : Prop :=
  (c.node = GNode.search ∨ c.node = GNode.grader ∨ c.node = GNode.rewriter) ∧
  c.state.retrieved_documents = [] ∧
  c.state.retry_count = 0 ∧
  c.state.action_input = some "redes"

/-! ## Helper lemmas -/

/-- The coordinator never returns a `retry_count` key. -/
lemma coordinatorNode_retry_none (resp : Except String String) (s : GraphState) :
    (coordinatorNode resp s).retry_count = none := by
  unfold coordinatorNode
  split
  · rfl
  · cases resp with
    | error e => rfl
    | ok r =>
      dsimp only
      split <;> rfl

/-- The search node never returns a `retry_count` key. -/
lemma searchNodeF_retry_none (resp : Except String (List Doc)) (s : GraphState) :
    (searchNodeF resp s).retry_count = none := by
  simp only [searchNodeF]
  split <;> (try split) <;> rfl

/-- The grader never returns a `retry_count` key. -/
lemma graderNodeF_retry_none (s : GraphState) :
    (graderNodeF s).retry_count = none := by
  unfold graderNodeF
  split <;> rfl

/-- The answer node never returns a `retry_count` key. -/
lemma answerNodeF_retry_none (resp : Except String String) (s : GraphState) :
    (answerNodeF resp s).retry_count = none := by
  unfold answerNodeF
  split
  · rfl
  · split
    · rfl
    · cases resp <;> rfl

/-- The rewriter either leaves `retry_count` out of its update or sets it to
exactly the incremented value. -/
lemma rewriterNodeF_retry_cases (resp : Except String String) (s : GraphState) :
    (rewriterNodeF resp s).1.retry_count = none ∨
    (rewriterNodeF resp s).1.retry_count = some (s.retry_count + 1) := by
  simp only [rewriterNodeF]
  split <;> (try split) <;> first
    | exact Or.inl rfl
    | exact Or.inr rfl

/-- The grading rule is exactly the inclusive threshold comparison. -/
lemma grade_document_iff (question document : String) (similarity : ℚ) :
    grade_document question document similarity = true ↔
      (25 / 100 : ℚ) ≤ similarity := by
  simp [grade_document]

/-- The high-similarity fixture passes the grade. -/
lemma grade_docHigh :
    grade_document "¿Qué es machine learning?" docHigh.document docHigh.similarity = true := by
  rw [grade_document_iff]
  norm_num [docHigh]

/-- The low-similarity fixture fails the grade. -/
lemma grade_docLow :
    grade_document "¿Qué es machine learning?" docLow.document docLow.similarity = false := by
  rw [← Bool.not_eq_true, grade_document_iff]
  norm_num [docLow]

/-- Merging any node update never decreases `retry_count`. -/
lemma stepG_retry_mono (o : Oracle) (c : GConfig) :
    c.state.retry_count ≤ (stepG o c).state.retry_count := by
  cases hn : c.node <;>
    simp only [stepG, hn, applyUpdate, coordinatorNode_retry_none,
      searchNodeF_retry_none, graderNodeF_retry_none, answerNodeF_retry_none,
      Option.getD_none, le_refl]
  · rcases rewriterNodeF_retry_cases (o.rewriteResp c.rewriteCalls) c.state with h | h <;>
      simp [h]

/-- Writing a field other than `f` leaves `f` unchanged. -/
lemma setField_ne_thought (r : ReactFields) (f : CurField) (v : String)
    (h : f ≠ CurField.thought) : (setField r f v).thought = r.thought := by
  cases f with
  | thought => exact absurd rfl h
  | action => rfl
  | actionInput => rfl

/-- Writing a field other than `actionInput` leaves `action_input`
unchanged. -/
lemma setField_ne_actionInput (r : ReactFields) (f : CurField) (v : String)
    (h : f ≠ CurField.actionInput) : (setField r f v).action_input = r.action_input := by
  cases f with
  | thought => rfl
  | action => rfl
  | actionInput => exact absurd rfl h

/-- One scan step on a line that does not start with `"Thought:"` leaves the
`thought` field alone and does not select it for continuation. -/
lemma parseStep_thought (acc : ReactFields × Option CurField) (l : String)
    (hl : pyStartsWith (pyStrip l) "Thought:" = false)
    (hacc : acc.2 ≠ some CurField.thought) :
    (parseStep acc l).1.thought = acc.1.thought ∧
    (parseStep acc l).2 ≠ some CurField.thought := by
  cases hc : acc.2 with
  | none =>
    simp only [parseStep, hc, hl, Bool.false_eq_true, if_false]
    split
    · exact ⟨rfl, by simp⟩
    · split
      · exact ⟨rfl, by simp⟩
      · exact ⟨rfl, hacc⟩
  | some f =>
    have hf : f ≠ CurField.thought := fun h => hacc (by rw [hc, h])
    simp only [parseStep, hc, hl, Bool.false_eq_true, if_false]
    split
    · exact ⟨rfl, by simp⟩
    · split
      · exact ⟨rfl, by simp⟩
      · by_cases he : pyStrip l ≠ ""
        · rw [if_pos he]
          exact ⟨setField_ne_thought acc.1 f _ hf, by simp [hf]⟩
        · rw [if_neg he]
          exact ⟨rfl, hacc⟩

/-- One scan step on a line that does not start with `"Action Input:"`
leaves the `action_input` field alone and does not select it for
continuation. -/
lemma parseStep_ai (acc : ReactFields × Option CurField) (l : String)
    (hl : pyStartsWith (pyStrip l) "Action Input:" = false)
    (hacc : acc.2 ≠ some CurField.actionInput) :
    (parseStep acc l).1.action_input = acc.1.action_input ∧
    (parseStep acc l).2 ≠ some CurField.actionInput := by
  cases hc : acc.2 with
  | none =>
    simp only [parseStep, hc, hl, Bool.false_eq_true, if_false]
    split
    · exact ⟨rfl, by simp⟩
    · split
      · exact ⟨rfl, by simp⟩
      · exact ⟨rfl, hacc⟩
  | some f =>
    have hf : f ≠ CurField.actionInput := fun h => hacc (by rw [hc, h])
    simp only [parseStep, hc, hl, Bool.false_eq_true, if_false]
    split
    · exact ⟨rfl, by simp⟩
    · split
      · exact ⟨rfl, by simp⟩
      · by_cases he : pyStrip l ≠ ""
        · rw [if_pos he]
          exact ⟨setField_ne_actionInput acc.1 f _ hf, by simp [hf]⟩
        · rw [if_neg he]
          exact ⟨rfl, hacc⟩

/-- If none of the lines starts with `"Thought:"`, the scanning fold never
writes the `thought` field. -/
lemma parse_fold_thought_untouched (L : List String) (acc : ReactFields × Option CurField)
    (hL : ∀ l ∈ L, pyStartsWith (pyStrip l) "Thought:" = false)
    (hacc : acc.2 ≠ some CurField.thought) :
    (L.foldl parseStep acc).1.thought = acc.1.thought ∧
    (L.foldl parseStep acc).2 ≠ some CurField.thought := by
  induction L generalizing acc with
  | nil => exact ⟨rfl, hacc⟩
  | cons l t ih =>
    have hstep := parseStep_thought acc l (hL l (List.mem_cons_self l t)) hacc
    rw [List.foldl_cons]
    obtain ⟨H1, H2⟩ := ih (parseStep acc l)
      (fun x hx => hL x (List.mem_cons_of_mem l hx)) hstep.2
    exact ⟨H1.trans hstep.1, H2⟩

/-- If none of the lines starts with `"Action Input:"`, the scanning fold
never writes the `action_input` field. -/
lemma parse_fold_ai_untouched (L : List String) (acc : ReactFields × Option CurField)
    (hL : ∀ l ∈ L, pyStartsWith (pyStrip l) "Action Input:" = false)
    (hacc : acc.2 ≠ some CurField.actionInput) :
    (L.foldl parseStep acc).1.action_input = acc.1.action_input ∧
    (L.foldl parseStep acc).2 ≠ some CurField.actionInput := by
  induction L generalizing acc with
  | nil => exact ⟨rfl, hacc⟩
  | cons l t ih =>
    have hstep := parseStep_ai acc l (hL l (List.mem_cons_self l t)) hacc
    rw [List.foldl_cons]
    obtain ⟨H1, H2⟩ := ih (parseStep acc l)
      (fun x hx => hL x (List.mem_cons_of_mem l hx)) hstep.2
    exact ⟨H1.trans hstep.1, H2⟩

/-- A search that returns zero results leaves the document list, the retry
counter and the pending search query unchanged. -/
lemma searchStep_empty_fields (s : GraphState) (hai : s.action_input = some "redes") :
    (applyUpdate s (searchNodeF (Except.ok []) s)).retrieved_documents =
      s.retrieved_documents ∧
    (applyUpdate s (searchNodeF (Except.ok []) s)).retry_count = s.retry_count ∧
    (applyUpdate s (searchNodeF (Except.ok []) s)).action_input = some "redes" := by
  have hcond : ¬ (s.action_input = none ∨ s.action_input = some "") := by
    rw [hai]
    rintro (h | h)
    · exact Option.noConfusion h
    · injection h with h'
      exact absurd h' (by decide)
  simp only [searchNodeF]
  rw [if_neg hcond]
  simp [applyUpdate, hai]

/-- Grading an empty document list touches neither the documents, the retry
counter, nor the search query. -/
lemma graderStep_empty_fields (s : GraphState) (hdocs : s.retrieved_documents = []) :
    (applyUpdate s (graderNodeF s)).retrieved_documents = [] ∧
    (applyUpdate s (graderNodeF s)).retry_count = s.retry_count ∧
    (applyUpdate s (graderNodeF s)).action_input = s.action_input := by
  simp only [graderNodeF]
  rw [if_pos hdocs]
  simp [applyUpdate, hdocs]

/-- A rewriter invocation whose LLM call raises, below the ceiling, leaves
the documents, the retry counter and the search query unchanged. -/
lemma rewriterStep_error_fields (s : GraphState) (e : String)
    (hretry : s.retry_count = 0) :
    (applyUpdate s (rewriterNodeF (Except.error e) s).1).retrieved_documents =
      s.retrieved_documents ∧
    (applyUpdate s (rewriterNodeF (Except.error e) s).1).retry_count = s.retry_count ∧
    (applyUpdate s (rewriterNodeF (Except.error e) s).1).action_input = s.action_input := by
  simp only [rewriterNodeF]
  rw [if_neg (by omega)]
  simp [applyUpdate]

/-- `stepG` preserves the broken-loop invariant under `failOracle`. -/
lemma loopInv_step (c : GConfig) (h : loopInv c) : loopInv (stepG failOracle c) := by
  obtain ⟨hn, hdocs, hretry, hai⟩ := h
  rcases hn with hn | hn | hn
  · -- search → grader
    have hresp : failOracle.searchResp c.searchCalls = Except.ok [] := rfl
    obtain ⟨f1, f2, f3⟩ := searchStep_empty_fields c.state hai
    simp only [stepG, hn, hresp]
    exact ⟨Or.inr (Or.inl rfl), f1.trans hdocs, f2.trans hretry, f3⟩
  · -- grader → rewriter (no docs, retries remain)
    obtain ⟨f1, f2, f3⟩ := graderStep_empty_fields c.state hdocs
    simp only [stepG, hn]
    have hroute : route_after_grader (applyUpdate c.state (graderNodeF c.state)) =
        GNode.rewriter := by
      simp [route_after_grader, f1, f2.trans hretry]
    exact ⟨Or.inr (Or.inr hroute), f1, f2.trans hretry, f3.trans hai⟩
  · -- rewriter → search (static edge, error branch)
    have hresp : failOracle.rewriteResp c.rewriteCalls =
        Except.error "Ollama no disponible" := rfl
    obtain ⟨f1, f2, f3⟩ := rewriterStep_error_fields c.state "Ollama no disponible" hretry
    simp only [stepG, hn, hresp]
    exact ⟨Or.inl rfl, f1.trans hdocs, f2.trans hretry, f3.trans hai⟩

/-- Once the broken-loop invariant holds, `END` is unreachable. -/
lemma loopInv_never_done (n : Nat) :
    ∀ c, loopInv c → (runN failOracle n c).node ≠ GNode.done := by
  induction n with
  | zero =>
    intro c h hdone
    simp only [runN] at hdone
    rcases h.1 with h1 | h1 | h1 <;> rw [h1] at hdone <;> exact GNode.noConfusion hdone
  | succ m ih =>
    intro c h
    simp only [runN]
    exact ih _ (loopInv_step c h)

/-! ## Claim theorems -/

/-- C2: the grader's returned `retrieved_documents` key is the relevant
sublist, but the state schema's `operator.add` channel *appends* it, so
after the grader runs on a state holding one relevant (0.9) and one
irrelevant (0.1) document the state holds `[high, low, high]` — the
irrelevant document is retained and the relevant one duplicated — instead of
exactly the relevant subset `[high]` that the claim (and the grader's own
"Sobrescribir con solo relevantes" comment) describes. -/
theorem grader_update_appends_not_replaces :
    graderPartition (questionOf gradeState) gradeState.retrieved_documents =
      ([docHigh], [docLow]) ∧
    (applyUpdate gradeState (graderNodeF gradeState)).retrieved_documents =
      [docHigh, docLow, docHigh] ∧
    (applyUpdate gradeState (graderNodeF gradeState)).retrieved_documents ≠
      [docHigh] := by
  have hq : questionOf gradeState = "¿Qué es machine learning?" := rfl
  have hdocs : gradeState.retrieved_documents = [docHigh, docLow] := rfl
  have hpart : graderPartition (questionOf gradeState) gradeState.retrieved_documents =
      ([docHigh], [docLow]) := by
    rw [hq, hdocs]
    simp [graderPartition, List.filter, grade_docHigh, grade_docLow]
  have hupd : (graderNodeF gradeState).retrieved_documents = some [docHigh] := by
    simp only [graderNodeF, hq, hdocs]
    simp [graderPartition, List.filter, grade_docHigh, grade_docLow]
  refine ⟨hpart, ?_, ?_⟩
  · simp [applyUpdate, hupd, hdocs]
  · simp [applyUpdate, hupd, hdocs]

/-- C4: grading with the fixed 0.25 threshold partitions any document list:
every document lands in exactly one of the two output lists, the two lists
are disjoint, together they are a permutation of the input, membership in
the relevant list is exactly `0.25 <= similarity` (boundary inclusive), and
re-grading the relevant list returns it unchanged with an empty irrelevant
list. -/
theorem grader_partition_spec (question : String) (documents : List Doc) :
    (∀ d, d ∈ documents ↔
      (d ∈ (graderPartition question documents).1 ∨
       d ∈ (graderPartition question documents).2)) ∧
    (∀ d, ¬ (d ∈ (graderPartition question documents).1 ∧
             d ∈ (graderPartition question documents).2)) ∧
    (∀ d, d ∈ documents →
      ((25 / 100 : ℚ) ≤ d.similarity ↔ d ∈ (graderPartition question documents).1)) ∧
    (∀ d, d ∈ documents →
      (¬ (25 / 100 : ℚ) ≤ d.similarity ↔ d ∈ (graderPartition question documents).2)) ∧
    List.Perm ((graderPartition question documents).1 ++ (graderPartition question documents).2)
      documents ∧
    graderPartition question (graderPartition question documents).1 =
      ((graderPartition question documents).1, []) := by
  simp only [graderPartition]
  refine ⟨?_, ?_, ?_, ?_, ?_, ?_⟩
  · intro d
    constructor
    · intro hd
      by_cases hrel : grade_document question d.document d.similarity = true
      · exact Or.inl (List.mem_filter.mpr ⟨hd, hrel⟩)
      · exact Or.inr (List.mem_filter.mpr ⟨hd, by simp [Bool.not_eq_true] at hrel ⊢; exact hrel⟩)
    · rintro (hd | hd) <;> exact (List.mem_filter.mp hd).1
  · rintro d ⟨h1, h2⟩
    have hrel := (List.mem_filter.mp h1).2
    have hirr := (List.mem_filter.mp h2).2
    rw [hrel] at hirr
    exact absurd hirr (by decide)
  · intro d hd
    constructor
    · intro hrel
      exact List.mem_filter.mpr
        ⟨hd, (grade_document_iff question d.document d.similarity).mpr hrel⟩
    · intro hmem
      exact (grade_document_iff question d.document d.similarity).mp
        (List.mem_filter.mp hmem).2
  · intro d hd
    constructor
    · intro hrel
      refine List.mem_filter.mpr ⟨hd, ?_⟩
      have hg : grade_document question d.document d.similarity = false := by
        rw [← Bool.not_eq_true, grade_document_iff]
        exact hrel
      simp [hg]
    · intro hmem hrel
      have hirr := (List.mem_filter.mp hmem).2
      have hg := (grade_document_iff question d.document d.similarity).mpr hrel
      rw [hg] at hirr
      exact absurd hirr (by decide)
  · exact List.filter_append_perm
      (fun d => grade_document question d.document d.similarity) documents
  · have h1 : List.filter (fun d => grade_document question d.document d.similarity)
        (List.filter (fun d => grade_document question d.document d.similarity) documents) =
        List.filter (fun d => grade_document question d.document d.similarity) documents :=
      List.filter_eq_self.mpr (fun d hd => (List.mem_filter.mp hd).2)
    have h2 : List.filter (fun d => ! grade_document question d.document d.similarity)
        (List.filter (fun d => grade_document question d.document d.similarity) documents) =
        [] := by
      rw [List.filter_eq_nil]
      intro d hd
      simp [(List.mem_filter.mp hd).2]
    rw [h1, h2]

/-- C4 witness: the partition at the spec's example similarities 0.9, 0.25
and 0.1 — the boundary document is relevant, re-grading is idempotent. -/
theorem grader_partition_spec_witness :
    docBoundary ∈ [docHigh, docBoundary, docLow] ∧
    ((25 / 100 : ℚ) ≤ docBoundary.similarity ↔
      docBoundary ∈ (graderPartition "¿Qué es ML?" [docHigh, docBoundary, docLow]).1) ∧
    graderPartition "¿Qué es ML?"
        (graderPartition "¿Qué es ML?" [docHigh, docBoundary, docLow]).1 =
      ((graderPartition "¿Qué es ML?" [docHigh, docBoundary, docLow]).1, []) := by
  have hmem : docBoundary ∈ [docHigh, docBoundary, docLow] := by simp
  exact ⟨hmem, (grader_partition_spec "¿Qué es ML?" _).2.2.1 docBoundary hmem,
    (grader_partition_spec "¿Qué es ML?" _).2.2.2.2.2⟩

/-- C5: the domain gate lowercases the query and tests substring
containment; any query containing an in-domain keyword is declared
in-domain (`is_out_of_domain = false`) because the in-domain scan runs
before the out-of-domain scan, regardless of any out-of-domain keywords
also present. -/
theorem domain_gate_in_domain_precedence (query kw : String)
    (hkw : kw ∈ DOMAIN_KEYWORDS) (hsub : strHas (pyLower query) kw = true) :
    is_out_of_domain query = false := by
  unfold is_out_of_domain
  have hany : DOMAIN_KEYWORDS.any (fun k => strHas (pyLower query) k) = true :=
    List.any_eq_true.mpr ⟨kw, hkw, hsub⟩
  simp [hany]

/-- C5 witness: "bitcoin and machine learning" contains the out-of-domain
keyword "bitcoin" yet is not short-circuited, because it also contains the
in-domain keyword "machine learning". -/
theorem domain_gate_precedence_witness :
    strHas (pyLower "bitcoin and machine learning") "bitcoin" = true ∧
    ("machine learning" ∈ DOMAIN_KEYWORDS ∧
      strHas (pyLower "bitcoin and machine learning") "machine learning" = true) ∧
    is_out_of_domain "bitcoin and machine learning" = false := by
  exact ⟨by decide, ⟨by decide, by decide⟩,
    domain_gate_in_domain_precedence "bitcoin and machine learning"
      "machine learning" (by decide) (by decide)⟩

/-- C9: the answer node's fallback chain guards only the exception branch;
on the success branch the stripped LLM completion is stored verbatim, so a
blank completion — which the external-interface contract says callers must
tolerate — yields a terminal state whose `final_answer` is the empty
string, contradicting the claim that the node always produces a non-empty
`final_answer`. -/
theorem answer_node_empty_completion_empty_final_answer :
    (applyUpdate answerState (answerNodeF (Except.ok "") answerState)).final_answer =
      some "" ∧
    (applyUpdate answerState (answerNodeF (Except.ok "") answerState)).next_step =
      "end" ∧
    (applyUpdate answerState
        (answerNodeF (Except.error "llm caído") answerState)).final_answer =
      some "dime más sobre ese tema" := by
  refine ⟨by decide, by decide, by decide⟩

/-- C7 (amended): `parse_react_response` is total over arbitrary response
strings; the returned action is always `"search"` or `"answer"`, an
accumulated action outside that set is coerced to `"search"`, validation
changes nothing but the action, a response with no `"Thought:"` line yields
the empty thought, and a response with no `"Action Input:"` line yields the
empty `action_input` — the raw response is *not* substituted. -/
theorem parse_react_response_spec (response : String) :
    ((parse_react_response response).action = "search" ∨
     (parse_react_response response).action = "answer") ∧
    ((parseFields response).1.action ≠ "search" →
      (parseFields response).1.action ≠ "answer" →
      (parse_react_response response).action = "search") ∧
    (parse_react_response response).thought = (parseFields response).1.thought ∧
    (parse_react_response response).action_input = (parseFields response).1.action_input ∧
    ((∀ l ∈ pySplitLines (pyStrip response), pyStartsWith (pyStrip l) "Thought:" = false) →
      (parse_react_response response).thought = "") ∧
    ((∀ l ∈ pySplitLines (pyStrip response),
        pyStartsWith (pyStrip l) "Action Input:" = false) →
      (parse_react_response response).action_input = "") := by
  have hth : (parse_react_response response).thought = (parseFields response).1.thought := by
    simp only [parse_react_response]
    split
    · rfl
    · rfl
  have hai : (parse_react_response response).action_input =
      (parseFields response).1.action_input := by
    simp only [parse_react_response]
    split
    · rfl
    · rfl
  refine ⟨?_, ?_, hth, hai, ?_, ?_⟩
  · simp only [parse_react_response]
    split
    · assumption
    · exact Or.inl rfl
  · intro h1 h2
    simp only [parse_react_response]
    rw [if_neg]
    rintro (h | h)
    · exact h1 h
    · exact h2 h
  · intro hL
    rw [hth]
    exact (parse_fold_thought_untouched _ _ hL (by simp)).1
  · intro hL
    rw [hai]
    exact (parse_fold_ai_untouched _ _ hL (by simp)).1

/-- C7 witness: the spec at the response `"Action: FLY\nmore data"`: the
invalid action `"fly more data"` is coerced to `"search"`, thought and
action_input stay empty. -/
theorem parse_react_response_spec_witness :
    ((parseFields "Action: FLY\nmore data").1.action ≠ "search" ∧
      (parseFields "Action: FLY\nmore data").1.action ≠ "answer") ∧
    (parse_react_response "Action: FLY\nmore data").action = "search" ∧
    (parse_react_response "Action: FLY\nmore data").thought = "" ∧
    (parse_react_response "Action: FLY\nmore data").action_input = "" := by
  refine ⟨⟨by decide, by decide⟩,
    (parse_react_response_spec "Action: FLY\nmore data").2.1 (by decide) (by decide),
    (parse_react_response_spec "Action: FLY\nmore data").2.2.2.2.1 (by decide),
    (parse_react_response_spec "Action: FLY\nmore data").2.2.2.2.2 (by decide)⟩

/-- C7 counterexample: on the prefix-free response `"hello"` the parser
returns the empty `action_input`, not the raw response, so the claimed
raw-response fallback does not exist. -/
theorem parse_react_response_no_fallback :
    parse_react_response "hello" =
      { thought := "", action := "search", action_input := "" } ∧
    ("hello" : String) ≠ "" := by
  exact ⟨by decide, by decide⟩

/-- C1: under an environment whose rewriter LLM raises on every call while
every search succeeds with zero results, the compiled graph never reaches
`END` in any number of supersteps: the rewriter's error branch does not
increment `retry_count`, its outgoing edge is the unconditional back-edge to
`search`, and `route_after_grader` keeps choosing `rewrite` at
`retry_count = 0`, so the turn loops (in production until LangGraph's
recursion limit raises) instead of terminating within `iteration <= 5`,
`retry_count <= 2` and a non-empty `final_answer`. -/
theorem rewriter_failure_turn_never_terminates (n : Nat) :
    (runN failOracle n (initConfig "hola")).node ≠ GNode.done := by
  cases n with
  | zero =>
    intro h
    simp only [runN, initConfig] at h
    exact GNode.noConfusion h
  | succ m =>
    have hstart : loopInv (stepG failOracle (initConfig "hola")) := by decide
    simp only [runN]
    exact loopInv_never_done m _ hstart

/-- C3 (amended): within a turn `retry_count` never decreases (no node's
merged update lowers it); a Rewriter invocation at the ceiling pre-check
leaves it unchanged and performs no LLM call; a below-ceiling invocation
whose LLM call succeeds raises it by exactly one; and — the amendment — a
below-ceiling invocation whose LLM call raises also leaves it unchanged
(while having attempted the call). -/
theorem rewriter_retry_count_spec (resp : Except String String) (s : GraphState) :
    s.retry_count ≤ (applyUpdate s (rewriterNodeF resp s).1).retry_count ∧
    (2 ≤ s.retry_count →
      (applyUpdate s (rewriterNodeF resp s).1).retry_count = s.retry_count ∧
      (rewriterNodeF resp s).2 = false) ∧
    (∀ r, s.retry_count < 2 → resp = Except.ok r →
      (applyUpdate s (rewriterNodeF resp s).1).retry_count = s.retry_count + 1) ∧
    (∀ e, s.retry_count < 2 → resp = Except.error e →
      (applyUpdate s (rewriterNodeF resp s).1).retry_count = s.retry_count ∧
      (rewriterNodeF resp s).2 = true) ∧
    (∀ (o : Oracle) (c : GConfig), c.state.retry_count ≤ (stepG o c).state.retry_count) := by
  refine ⟨?_, ?_, ?_, ?_, stepG_retry_mono⟩
  · rcases rewriterNodeF_retry_cases resp s with h | h <;> simp [applyUpdate, h]
  · intro h2
    simp only [rewriterNodeF]
    rw [if_pos h2]
    exact ⟨by simp [applyUpdate], rfl⟩
  · intro r hlt heq
    subst heq
    simp only [rewriterNodeF]
    rw [if_neg (by omega)]
    simp [applyUpdate, increment_retry]
  · intro e hlt heq
    subst heq
    simp only [rewriterNodeF]
    rw [if_neg (by omega)]
    exact ⟨by simp [applyUpdate], rfl⟩

/-- C3 witness: from a fresh state a successful rewrite moves `retry_count`
from 0 to 1; at the ceiling state the pre-check fires and no LLM call is
made. -/
theorem rewriter_retry_count_spec_witness :
    (create_initial_state "¿Qué es un transformer?").retry_count < 2 ∧
    (applyUpdate (create_initial_state "¿Qué es un transformer?")
        (rewriterNodeF (Except.ok "transformer arquitectura atención")
          (create_initial_state "¿Qué es un transformer?")).1).retry_count =
      (create_initial_state "¿Qué es un transformer?").retry_count + 1 ∧
    2 ≤ retryCeilState.retry_count ∧
    (rewriterNodeF (Except.ok "nunca usado") retryCeilState).2 = false := by
  refine ⟨by decide, ?_, by decide, ?_⟩
  · exact (rewriter_retry_count_spec (Except.ok "transformer arquitectura atención")
      (create_initial_state "¿Qué es un transformer?")).2.2.1
      "transformer arquitectura atención" (by decide) rfl
  · exact ((rewriter_retry_count_spec (Except.ok "nunca usado") retryCeilState).2.1
      (by decide)).2

/-- C3 counterexample: a below-ceiling Rewriter invocation whose LLM call
raises does not hit the pre-check, yet leaves `retry_count` at 0 instead of
incrementing it by exactly 1 as the claim states. -/
theorem rewriter_error_leaves_retry_count :
    (create_initial_state "¿Qué es ML?").retry_count < 2 ∧
    (applyUpdate (create_initial_state "¿Qué es ML?")
        (rewriterNodeF (Except.error "fallo de conexión")
          (create_initial_state "¿Qué es ML?")).1).retry_count = 0 := by
  refine ⟨by decide, by decide⟩

/-- C6 (amended): the coordinator's iteration ceiling is checked against the
pre-increment `iteration` and forces a terminal answer whose `action_input`
prefixes the parsed action input with the ceiling notice; the gated
out-of-domain short-circuit and every invocation whose LLM call returns
increment `iteration` by exactly 1; but — the amendment — an invocation
whose LLM call raises returns an error update with no `iteration` key, so
the merged iteration is unchanged. -/
theorem coordinator_iteration_spec (resp : Except String String) (s : GraphState) :
    (is_out_of_domain (coordQuery s) = true →
      (coordinatorNode resp s).iteration = some (s.iteration + 1)) ∧
    (∀ r, resp = Except.ok r →
      (coordinatorNode resp s).iteration = some (s.iteration + 1)) ∧
    (∀ r, resp = Except.ok r → is_out_of_domain (coordQuery s) = false →
      5 ≤ s.iteration →
      (coordinatorNode resp s).action = some "answer" ∧
      (coordinatorNode resp s).action_input = some
        ("He alcanzado el límite de iteraciones. Con la información disponible, puedo decir que: "
          ++ (parse_react_response r).action_input)) ∧
    (∀ e, resp = Except.error e → is_out_of_domain (coordQuery s) = false →
      (coordinatorNode resp s).iteration = none ∧
      (applyUpdate s (coordinatorNode resp s)).iteration = s.iteration) := by
  refine ⟨?_, ?_, ?_, ?_⟩
  · intro hg
    simp [coordinatorNode, hg, increment_iteration]
  · intro r heq
    subst heq
    by_cases hg : is_out_of_domain (coordQuery s) = true
    · simp [coordinatorNode, hg, increment_iteration]
    · simp only [coordinatorNode, Bool.not_eq_true] at hg ⊢
      rw [if_neg (by simp [hg])]
      split <;> simp [increment_iteration]
  · intro r heq hg h5
    subst heq
    simp only [coordinatorNode]
    rw [if_neg (by simp [hg])]
    rw [if_pos h5]
    exact ⟨rfl, rfl⟩
  · intro e heq hg
    subst heq
    simp only [coordinatorNode]
    rw [if_neg (by simp [hg])]
    exact ⟨rfl, by simp [applyUpdate]⟩

/-- C6 witness: the out-of-domain bitcoin query increments iteration through
the gated short-circuit, and at pre-increment `iteration = 5` the ceiling
forces `answer`. -/
theorem coordinator_iteration_spec_witness :
    is_out_of_domain (coordQuery bitcoinState) = true ∧
    (coordinatorNode (Except.ok "Action: answer\nAction Input: listo")
        bitcoinState).iteration = some (bitcoinState.iteration + 1) ∧
    5 ≤ ceilingState.iteration ∧
    (coordinatorNode (Except.ok "Action: search\nAction Input: redes")
        ceilingState).action = some "answer" := by
  refine ⟨by decide, ?_, by decide, ?_⟩
  · exact (coordinator_iteration_spec (Except.ok "Action: answer\nAction Input: listo")
      bitcoinState).1 (by decide)
  · exact ((coordinator_iteration_spec (Except.ok "Action: search\nAction Input: redes")
      ceilingState).2.2.1 "Action: search\nAction Input: redes" rfl (by decide)
      (by decide)).1

/-- C6 counterexample: when the coordinator's LLM call raises, the returned
error update carries no `iteration` key and the merged state keeps
`iteration = 0`, so not *every* coordinator invocation increments the
counter. -/
theorem coordinator_error_leaves_iteration :
    (create_initial_state "hola").iteration = 0 ∧
    (applyUpdate (create_initial_state "hola")
        (coordinatorNode (Except.error "Ollama no responde")
          (create_initial_state "hola"))).iteration = 0 := by
  refine ⟨rfl, by decide⟩

/-- C8: the retrieval gateway asks the vector store for `k * 2` candidates
(`k` defaulting over the Python `or`), keeps exactly those with
`similarity >= threshold` and truncates to the first `k`; hence the result
has length at most `k`, every returned document clears the threshold, and
the result is a sublist (order preserved) of the vector store's ranked
candidates. -/
theorem retrieve_spec (vsearch : String → Nat → List Doc) (self_top_k : Nat)
    (self_threshold : ℚ) (query : String) (top_k : Option Nat)
    (min_similarity : Option ℚ) :
    (retrieve vsearch self_top_k self_threshold query top_k min_similarity).length ≤
      pyOrNat top_k self_top_k ∧
    (∀ d ∈ retrieve vsearch self_top_k self_threshold query top_k min_similarity,
      pyOrRat min_similarity self_threshold ≤ d.similarity) ∧
    List.Sublist (retrieve vsearch self_top_k self_threshold query top_k min_similarity)
      (vsearch query (pyOrNat top_k self_top_k * 2)) := by
  simp only [retrieve]
  refine ⟨?_, ?_, ?_⟩
  · exact List.length_take_le _ _
  · intro d hd
    have hd' := List.mem_of_mem_take hd
    exact of_decide_eq_true (List.mem_filter.mp hd').2
  · exact (List.take_sublist _ _).trans (List.filter_sublist _)

/-- C8 witness: with the SearchNode parameters (`top_k = 5`, threshold 0.2)
over candidates at similarities 0.9, 0.25, 0.1, the gateway returns the
first two in order; the returned high document clears the threshold and the
bounds follow from the theorem. -/
theorem retrieve_spec_witness :
    retrieve witnessSearch 5 (2 / 10) "redes neuronales" (some 5) none =
      [docHigh, docBoundary] ∧
    docHigh ∈ retrieve witnessSearch 5 (2 / 10) "redes neuronales" (some 5) none ∧
    (2 / 10 : ℚ) ≤ docHigh.similarity ∧
    (retrieve witnessSearch 5 (2 / 10) "redes neuronales" (some 5) none).length ≤ 5 ∧
    List.Sublist (retrieve witnessSearch 5 (2 / 10) "redes neuronales" (some 5) none)
      (witnessSearch "redes neuronales" 10) := by
  have c1 : decide ((2 / 10 : ℚ) ≤ docHigh.similarity) = true := by
    rw [decide_eq_true_eq]; norm_num [docHigh]
  have c2 : decide ((2 / 10 : ℚ) ≤ docBoundary.similarity) = true := by
    rw [decide_eq_true_eq]; norm_num [docBoundary]
  have c3 : decide ((2 / 10 : ℚ) ≤ docLow.similarity) = false := by
    rw [decide_eq_false_iff_not]; norm_num [docLow]
  have hOut : retrieve witnessSearch 5 (2 / 10) "redes neuronales" (some 5) none =
      [docHigh, docBoundary] := by
    simp [retrieve, pyOrNat, pyOrRat, witnessSearch, List.filter, c1, c2, c3]
  have hmem : docHigh ∈ retrieve witnessSearch 5 (2 / 10) "redes neuronales" (some 5) none := by
    rw [hOut]; simp
  have h := retrieve_spec witnessSearch 5 (2 / 10) "redes neuronales" (some 5) none
  refine ⟨hOut, hmem, h.2.1 docHigh hmem, ?_, ?_⟩
  · simpa [pyOrNat] using h.1
  · simpa [pyOrNat] using h.2.2

/-- C10: two chat requests with the same `message` produce the same answer
and the same source list for any fixed environment, whatever
`conversation_id` and `conversation_history` they carry: the handler invokes
the graph with the message alone, and the supplied history feeds only the
server-side store. -/
theorem chat_response_independent_of_history (o : Oracle) (fid1 fid2 : String)
    (r1 r2 : ChatRequest) (h : r1.message = r2.message) :
    (chatHandler o fid1 r1).map ChatResponse.answer =
      (chatHandler o fid2 r2).map ChatResponse.answer ∧
    (chatHandler o fid1 r1).map ChatResponse.sources =
      (chatHandler o fid2 r2).map ChatResponse.sources := by
  unfold chatHandler
  rw [h]
  generalize run_graph o r2.message = res
  cases res <;> exact ⟨rfl, rfl⟩

/-- C10 witness: the same question with and without attached history and
conversation id yields the same answer under the benign environment. -/
theorem chat_response_independent_witness :
    reqPlain.message = reqWithHistory.message ∧
    (chatHandler benignOracle "uuid-a" reqPlain).map ChatResponse.answer =
      (chatHandler benignOracle "uuid-b" reqWithHistory).map ChatResponse.answer ∧
    (chatHandler benignOracle "uuid-a" reqPlain).map ChatResponse.sources =
      (chatHandler benignOracle "uuid-b" reqWithHistory).map ChatResponse.sources := by
  have h := chat_response_independent_of_history benignOracle "uuid-a" "uuid-b"
    reqPlain reqWithHistory rfl
  exact ⟨rfl, h.1, h.2⟩

end RagSpec
